import Mathlib

/- Verification of the certificate-check core of url-ssl-check (main.go):
day-count derivation, severity banding, the check-cycle orchestration in
`checkCertificates`, and the two notification dispatchers `sendEmail` and
`sendSlackNotification`.  Go strings are modelled as Lean `String`,
`time.Duration` / Unix timestamps as `Int` nanoseconds, and the network
boundary (TLS dial, SMTP, HTTP POST) as explicit oracles.  The Go source
file's string literals contain characters that survived an encoding
round-trip; they are reproduced byte-for-byte with unicode escapes. -/

/-- Nanoseconds in 24 hours, the divisor behind
`time.Until(expiryDate).Hours() / 24` at main.go:152
(`time.Duration` is integer nanoseconds; 24h = 86400e9 ns). -/
def nsPerDay : Int := 86400000000000

/-- Model of Go `time.Time`: absolute Unix nanoseconds, plus the calendar
fields that `Format` reads when rendering dates. -/
structure GoTime where
  unixNanos : Int
  year : Nat
  month : Nat
  day : Nat
deriving DecidableEq

/-- main.go:19-25 `CertInfo`. -/
structure CertInfo where
  url : String
  name : String
  expiryDate : GoTime
  daysRemaining : Int
  commonName : String
deriving DecidableEq

/-- main.go:152 `daysRemaining := int(time.Until(expiryDate).Hours() / 24)`.
Go's `int(...)` conversion of the (exact, up to one float ulp) quotient
truncates toward zero, so the value is the truncated division of the
nanosecond distance from `now` to expiry by one day. -/
def goDaysRemaining (now expiryNanos : Int) : Int :=
  Int.tdiv (expiryNanos - now) nsPerDay

/-- The day count as the SPEC words it (§4.1 Derivation):
`floor((expiryTimestamp − now).totalHours / 24)`, i.e. flooring division,
written here to compare against `goDaysRemaining`. -/
def specFloorDays (now expiryNanos : Int) : Int :=
  Int.fdiv (expiryNanos - now) nsPerDay

/-- main.go:150-160: the record built from the leaf certificate on a
successful inspection. -/
def mkCertInfo (url name : String) (now : Int) (expiry : GoTime)
    (commonName : String) : CertInfo :=
  { url := url, name := name, expiryDate := expiry,
    daysRemaining := goDaysRemaining now expiry.unixNanos,
    commonName := commonName }

/-- The four severity bands of the spec (§3 SeverityBand). -/
inductive SeverityBand where
  | critical
  | warning
  | caution
  | ok
deriving DecidableEq

/-- main.go:408-423: the statistics if-chain of `buildEmailBody`
(`<=7` critical, else `<=14` warning, else `<=30` caution, else ok),
returned as the band it counts into. -/
def statBand (d : Int) : SeverityBand :=
  if d ≤ 7 then .critical
  else if d ≤ 14 then .warning
  else if d ≤ 30 then .caution
  else .ok

/-- The classifier as the SPEC words it (§3): CRITICAL (≤7 days),
WARNING (8-14 days), CAUTION (15-30 days), OK (>30 days); written to
compare against the code's chains. -/
def classify (d : Int) : SeverityBand :=
  if d ≤ 7 then .critical
  else if 8 ≤ d ∧ d ≤ 14 then .warning
  else if 15 ≤ d ∧ d ≤ 30 then .caution
  else .ok

/-- main.go:456-462: badge class of the expiring-certificates section of
`buildEmailBody` (default warning, overridden to critical at ≤7). -/
def expiringBadgeClass (d : Int) : String :=
  if d ≤ 7 then "badge-critical" else "badge-warning"

/-- main.go:456-462: card class of the expiring-certificates section. -/
def expiringCardClass (d : Int) : String :=
  if d ≤ 7 then "critical" else "warning"

/-- main.go:495-509: badge class of the all-certificates section of
`buildEmailBody` (default ok, overridden by the threshold chain). -/
def allBadgeClass (d : Int) : String :=
  if d ≤ 7 then "badge-critical"
  else if d ≤ 14 then "badge-warning"
  else if d ≤ 30 then "badge-caution"
  else "badge-ok"

/-- main.go:495-509: card class of the all-certificates section. -/
def allCardClass (d : Int) : String :=
  if d ≤ 7 then "critical"
  else if d ≤ 14 then "warning"
  else if d ≤ 30 then "caution"
  else ""

/-- main.go:559-562: the per-record emoji string of the Slack message
(default the mangled warning-sign bytes, overridden at ≤7 by the mangled
red-circle bytes, exactly as the source file stores them). -/
def slackEmoji (d : Int) : String :=
  if d ≤ 7 then "\uF8FF\u00FC\u00EE\u00A5"
  else "\u201A\u00F6\u2020\u00D4\u220F\u00E8"

/-- The badge class each severity band names in the email CSS. -/
def bandBadge : SeverityBand → String
  | .critical => "badge-critical"
  | .warning => "badge-warning"
  | .caution => "badge-caution"
  | .ok => "badge-ok"

/-- The card class each severity band names in the email CSS
(the ok band leaves the default, empty class). -/
def bandCard : SeverityBand → String
  | .critical => "critical"
  | .warning => "warning"
  | .caution => "caution"
  | .ok => ""

/-- Zero-padded two-digit decimal, Go `time.Format` verbs `01` / `02`. -/
def pad2 (n : Nat) : String :=
  if n < 10 then "0" ++ toString n else toString n

/-- Zero-padded four-digit decimal, Go `time.Format` verb `2006`. -/
def pad4 (n : Nat) : String :=
  if n < 10 then "000" ++ toString n
  else if n < 100 then "00" ++ toString n
  else if n < 1000 then "0" ++ toString n
  else toString n

/-- Go `t.Format("2006-01-02")` (main.go:564) on the calendar fields. -/
def formatDateISO (t : GoTime) : String :=
  pad4 t.year ++ "-" ++ pad2 t.month ++ "-" ++ pad2 t.day

/-- main.go:557: the opening line of the Slack message.  Note the Go
literal `\\n` is the two-character sequence backslash-n, not a newline. -/
def slackHeaderText : String :=
  "\uF8FF\u00FC\u00F6\u00AE *SSL Certificates Expiring Soon*\\n\\n"

/-- main.go:558-565: the fragment appended for one record: emoji, name,
url, common name, days remaining (`%d`), and expiry date, joined by the
literal two-character sequences backslash-n. -/
def slackLine (c : CertInfo) : String :=
  slackEmoji c.daysRemaining ++ " *" ++ c.name ++ "* (" ++ c.url ++ ")\\n" ++
  "\u201A\u00C4\u00A2 Certificate: " ++ c.commonName ++ "\\n" ++
  "\u201A\u00C4\u00A2 Days Remaining: *" ++ toString c.daysRemaining ++ "*\\n" ++
  "\u201A\u00C4\u00A2 Expires: " ++ formatDateISO c.expiryDate ++ "\\n\\n"

/-- main.go:557-565: the full Slack message, the header followed by one
fragment per record in list order. -/
def buildSlackMessage (certs : List CertInfo) : String :=
  certs.foldl (fun msg c => msg ++ slackLine c) slackHeaderText

/-- A `{"type": ..., "text": ...}` object of the Slack payload. -/
structure SlackTextObject where
  type : String
  text : String
deriving DecidableEq

/-- One element of the `blocks` array of the Slack payload. -/
structure SlackBlock where
  type : String
  text : SlackTextObject
deriving DecidableEq

/-- main.go:567-585: the JSON object POSTed to the webhook, with its
top-level `text` field and its `blocks` array. -/
structure SlackPayload where
  text : String
  blocks : List SlackBlock
deriving DecidableEq

/-- main.go:574: the plain-text title of the header block. -/
def slackHeaderBlockText : String :=
  "\uF8FF\u00FC\u00F6\u00AE SSL Certificates Expiring Soon"

/-- main.go:567-585: the payload built from the message. -/
def slackPayload (certs : List CertInfo) : SlackPayload :=
  let message := buildSlackMessage certs
  { text := message,
    blocks :=
      [ { type := "header",
          text := { type := "plain_text", text := slackHeaderBlockText } },
        { type := "section",
          text := { type := "mrkdwn", text := message } } ] }

/-- The logged outcome of one run of `sendSlackNotification`. -/
inductive SlackOutcome where
  | skippedNoURL
  | transportError (cause : String)
  | deliveryFailed (status : Nat)
  | delivered
deriving DecidableEq

/-- main.go:549-606 `sendSlackNotification`: skip when the webhook URL is
the empty string (unset env var), otherwise POST the payload once and log
failure exactly on a status other than 200 (`http.StatusOK`).  The
HTTP/JSON boundary is the oracle `post` (marshaling this payload cannot
fail); the first component collects the POSTed payloads. -/
def sendSlackNotification (webhookURL : String) (certs : List CertInfo)
    (post : SlackPayload → Except String Nat) :
    List SlackPayload × SlackOutcome :=
  if webhookURL = "" then ([], .skippedNoURL)
  else
    let payload := slackPayload certs
    match post payload with
    | .error e => ([payload], .transportError e)
    | .ok status =>
        ([payload], if status ≠ 200 then .deliveryFailed status else .delivered)

/-- main.go:164-169: the six `os.Getenv` values `sendEmail` reads; a
missing environment variable is the empty string. -/
structure SMTPConfig where
  smtpHost : String
  smtpPort : String
  smtpUser : String
  smtpPass : String
  emailFrom : String
  emailTo : String
deriving DecidableEq

/-- The delivery parameters of the one `smtp.SendMail` call of
main.go:187-188: address `host:port`, the `PlainAuth` credentials, the
envelope, and the data rendered into the message body. -/
structure EmailAttempt where
  addr : String
  authUser : String
  authPass : String
  mailFrom : String
  rcptTo : List String
  allCerts : List CertInfo
  expiringCerts : List CertInfo
deriving DecidableEq

/-- main.go:163-195 `sendEmail`: skip (`none`) exactly when host, port,
sender or recipient is missing (main.go:171), otherwise attempt one
delivery carrying the `PlainAuth(smtpUser, smtpPass)` credentials, which
are not part of the skip test.  The HTML body rendering is a thin
collaborator; the attempt records what it is rendered from. -/
def sendEmail (cfg : SMTPConfig) (allCerts expiringCerts : List CertInfo) :
    Option EmailAttempt :=
  if cfg.smtpHost = "" ∨ cfg.smtpPort = "" ∨ cfg.emailFrom = "" ∨ cfg.emailTo = ""
  then none
  else some
    { addr := cfg.smtpHost ++ ":" ++ cfg.smtpPort,
      authUser := cfg.smtpUser, authPass := cfg.smtpPass,
      mailFrom := cfg.emailFrom, rcptTo := [cfg.emailTo],
      allCerts := allCerts, expiringCerts := expiringCerts }

/-- The timestamped lines `checkCertificates` writes to the log sink. -/
inductive LogEvent where
  | cycleStart
  | noURLs
  | inspectFailed (name url cause : String)
  | inspectOK (name url : String) (days : Int)
  | cycleDone
deriving DecidableEq

/-- The two accumulators of main.go:80-81 plus the log sink. -/
structure CycleState where
  expiringCerts : List CertInfo
  allCerts : List CertInfo
  log : List LogEvent
deriving DecidableEq

/-- main.go:83-96, the body of the range loop for one `(name, url)` pair:
on error log and skip; on success append to `allCerts`, log, and append
to `expiringCerts` when `DaysRemaining <= 14`.  The network call
`getCertificateInfo(url, name)` is the oracle `inspect url name`. -/
def inspectStep (inspect : String → String → Except String CertInfo)
    (st : CycleState) (p : String × String) : CycleState :=
  match inspect p.2 p.1 with
  | .error e => { st with log := st.log ++ [.inspectFailed p.1 p.2 e] }
  | .ok ci =>
      let st1 : CycleState :=
        { st with allCerts := st.allCerts ++ [ci],
                  log := st.log ++ [.inspectOK p.1 p.2 ci.daysRemaining] }
      if ci.daysRemaining ≤ 14 then
        { st1 with expiringCerts := st1.expiringCerts ++ [ci] }
      else st1

/-- What one check cycle produced: the two sequences, whether each
dispatcher was invoked (main.go:99-106), and the log lines. -/
structure CycleResult where
  allCerts : List CertInfo
  expiringCerts : List CertInfo
  emailInvoked : Bool
  slackInvoked : Bool
  log : List LogEvent
deriving DecidableEq

/-- main.go:71-109 `checkCertificates`: early return when no `URL_`-keyed
environment entries exist, otherwise the inspection loop followed by the
two gated dispatch calls.  `urls` is the iteration order the Go map
produced this cycle. -/
def checkCertificates (urls : List (String × String))
    (inspect : String → String → Except String CertInfo) : CycleResult :=
  if urls.length = 0 then
    { allCerts := [], expiringCerts := [],
      emailInvoked := false, slackInvoked := false,
      log := [.cycleStart, .noURLs] }
  else
    let st := urls.foldl (inspectStep inspect)
      { expiringCerts := [], allCerts := [], log := [.cycleStart] }
    { allCerts := st.allCerts, expiringCerts := st.expiringCerts,
      emailInvoked := decide (0 < st.allCerts.length),
      slackInvoked := decide (0 < st.expiringCerts.length),
      log := st.log ++ [.cycleDone] }

/-- The single log line the loop body emits for one `(name, url)` pair. -/
def logEventOf (inspect : String → String → Except String CertInfo)
    (p : String × String) : LogEvent :=
  match inspect p.2 p.1 with
  | .error e => .inspectFailed p.1 p.2 e
  | .ok ci => .inspectOK p.1 p.2 ci.daysRemaining

/-- One fold step of the inspection loop, characterized per outcome:
the three components of the accumulator after consuming `urls`. -/
theorem foldl_inspectStep (inspect : String → String → Except String CertInfo)
    (urls : List (String × String)) (st : CycleState) :
    (urls.foldl (inspectStep inspect) st).allCerts
        = st.allCerts ++ urls.filterMap (fun p => (inspect p.2 p.1).toOption) ∧
    (urls.foldl (inspectStep inspect) st).expiringCerts
        = st.expiringCerts ++
          (urls.filterMap (fun p => (inspect p.2 p.1).toOption)).filter
            (fun c => decide (c.daysRemaining ≤ 14)) ∧
    (urls.foldl (inspectStep inspect) st).log
        = st.log ++ urls.map (logEventOf inspect) := by
  induction urls generalizing st with
  | nil => simp
  | cons p rest ih =>
    obtain ⟨ha, he, hl⟩ := ih (inspectStep inspect st p)
    simp only [List.foldl_cons, List.filterMap_cons, List.map_cons]
    cases h : inspect p.2 p.1 with
    | error e =>
        simp only [inspectStep, h, Except.toOption] at ha he hl ⊢
        refine ⟨?_, ?_, ?_⟩ <;> simp [ha, he, hl, logEventOf, h]
    | ok ci =>
        by_cases hd : ci.daysRemaining ≤ 14
        · simp only [inspectStep, h, Except.toOption, if_pos hd] at ha he hl ⊢
          refine ⟨?_, ?_, ?_⟩ <;>
            simp [ha, he, hl, logEventOf, h, hd, List.filter_cons]
        · simp only [inspectStep, h, Except.toOption, if_neg hd] at ha he hl ⊢
          refine ⟨?_, ?_, ?_⟩ <;>
            simp [ha, he, hl, logEventOf, h, hd, List.filter_cons]

/-- `allCerts` after a cycle is exactly the successful inspections,
one record each, in iteration order. -/
theorem checkCertificates_allCerts (urls : List (String × String))
    (inspect : String → String → Except String CertInfo) :
    (checkCertificates urls inspect).allCerts
        = urls.filterMap (fun p => (inspect p.2 p.1).toOption) := by
  unfold checkCertificates
  split
  · next h => simp [List.length_eq_zero.mp h]
  · next h =>
      have := (foldl_inspectStep inspect urls
        { expiringCerts := [], allCerts := [], log := [.cycleStart] }).1
      simpa using this

/-- `expiringCerts` after a cycle is the ≤14-day filter of the successful
inspections. -/
theorem checkCertificates_expiringCerts (urls : List (String × String))
    (inspect : String → String → Except String CertInfo) :
    (checkCertificates urls inspect).expiringCerts
        = (urls.filterMap (fun p => (inspect p.2 p.1).toOption)).filter
            (fun c => decide (c.daysRemaining ≤ 14)) := by
  unfold checkCertificates
  split
  · next h => simp [List.length_eq_zero.mp h]
  · next h =>
      have := (foldl_inspectStep inspect urls
        { expiringCerts := [], allCerts := [], log := [.cycleStart] }).2.1
      simpa using this

/-- The log of a non-empty cycle: start marker, one line per endpoint,
completion marker. -/
theorem checkCertificates_log (urls : List (String × String))
    (inspect : String → String → Except String CertInfo) (h : urls ≠ []) :
    (checkCertificates urls inspect).log
        = LogEvent.cycleStart :: (urls.map (logEventOf inspect)
            ++ [LogEvent.cycleDone]) := by
  unfold checkCertificates
  split
  · next h0 => exact absurd (List.length_eq_zero.mp h0) h
  · next h0 =>
      have := (foldl_inspectStep inspect urls
        { expiringCerts := [], allCerts := [], log := [.cycleStart] }).2.2
      simp [this]

/-- Concrete fixtures for witnesses: a certificate five days from expiry,
one forty days out, an inspection oracle that resolves two hosts and
fails the third, and a three-endpoint configuration. -/
def t0 : GoTime :=
  { unixNanos := 1767312000000000000, year := 2026, month := 1, day := 2 }

/-- Fixture record in the expiring range (5 days). -/
def c0 : CertInfo :=
  { url := "a.example:443", name := "A", expiryDate := t0,
    daysRemaining := 5, commonName := "cn-a" }

/-- Fixture record outside the expiring range (40 days). -/
def c1 : CertInfo :=
  { url := "b.example:443", name := "B", expiryDate := t0,
    daysRemaining := 40, commonName := "cn-b" }

/-- Fixture inspection oracle. -/
def inspect0 : String → String → Except String CertInfo :=
  fun url _ =>
    if url = "a.example" then .ok c0
    else if url = "b.example" then .ok c1
    else .error "dial tcp: connection refused"

/-- Fixture endpoint configuration. -/
def urls0 : List (String × String) :=
  [("A", "a.example"), ("B", "b.example"), ("C", "c.example")]

/-- Right-nested concatenation of a list of strings. -/
def concatAll : List String → String
  | [] => ""
  | s :: rest => s ++ concatAll rest

/-- The Slack message fold, rewritten as header-plus-concatenation. -/
theorem buildSlackMessage_concat (certs : List CertInfo) :
    buildSlackMessage certs = slackHeaderText ++ concatAll (certs.map slackLine) := by
  unfold buildSlackMessage
  generalize slackHeaderText = s
  induction certs generalizing s with
  | nil => simp [concatAll]
  | cons c rest ih =>
      simp only [List.foldl_cons, List.map_cons, concatAll, ih,
        String.append_assoc]

/-- A string occurs inside itself. -/
theorem part_refl (t : String) : t.data <:+: t.data := ⟨[], [], by simp⟩

/-- An occurrence inside `s` survives appending on the right. -/
theorem part_left (t s u : String) (h : t.data <:+: s.data) :
    t.data <:+: (s ++ u).data := by
  rw [String.data_append]
  exact h.trans (List.prefix_append s.data u.data).isInfix

/-- An occurrence inside `u` survives prepending on the left. -/
theorem part_right (t s u : String) (h : t.data <:+: u.data) :
    t.data <:+: (s ++ u).data := by
  rw [String.data_append]
  exact h.trans (List.suffix_append s.data u.data).isInfix

/-- A member of a string list occurs inside the list's concatenation. -/
theorem part_concatAll (s : String) (ls : List String) (h : s ∈ ls) :
    s.data <:+: (concatAll ls).data := by
  induction ls with
  | nil => cases h
  | cons x rest ih =>
      rcases List.mem_cons.mp h with h | h
      · subst h
        exact part_left s s (concatAll rest) (part_refl s)
      · exact part_right s x (concatAll rest) (ih h)

/-- Every field of a record occurs in its Slack message fragment, and the
fragment ends with the literal backslash-n pair. -/
theorem slackLine_fields (c : CertInfo) :
    c.name.data <:+: (slackLine c).data ∧
    c.url.data <:+: (slackLine c).data ∧
    c.commonName.data <:+: (slackLine c).data ∧
    (toString c.daysRemaining).data <:+: (slackLine c).data ∧
    (formatDateISO c.expiryDate).data <:+: (slackLine c).data ∧
    "\\n\\n".data <:+ (slackLine c).data := by
  unfold slackLine
  refine ⟨?_, ?_, ?_, ?_, ?_, ?_⟩
  · iterate 12 apply part_left
    exact part_right _ _ _ (part_refl _)
  · iterate 10 apply part_left
    exact part_right _ _ _ (part_refl _)
  · iterate 7 apply part_left
    exact part_right _ _ _ (part_refl _)
  · iterate 4 apply part_left
    exact part_right _ _ _ (part_refl _)
  · apply part_left
    exact part_right _ _ _ (part_refl _)
  · rw [String.data_append]
    exact List.suffix_append _ _

/-- Truncated division by a day is negative exactly when the dividend is
at least a full day below zero (the dividend range (−1 day, 0) truncates
to 0, not −1). -/
theorem tdiv_nsPerDay_neg_iff (a : Int) :
    Int.tdiv a nsPerDay < 0 ↔ a ≤ -nsPerDay := by
  rcases le_or_lt 0 a with ha | ha
  · rw [Int.tdiv_eq_ediv ha (by norm_num [nsPerDay])]
    have h2 : 0 ≤ a / nsPerDay := Int.ediv_nonneg ha (by norm_num [nsPerDay])
    simp only [nsPerDay] at h2 ⊢
    omega
  · have h1 : Int.tdiv (-(-a)) nsPerDay = -Int.tdiv (-a) nsPerDay :=
      Int.neg_tdiv (-a) nsPerDay
    rw [neg_neg] at h1
    rw [h1, Int.tdiv_eq_ediv (by omega) (by norm_num [nsPerDay])]
    simp only [nsPerDay]
    omega

/-- Claim C1 counterexample: with now = 0 and an expiry timestamp one
hour in the past, the code computes daysRemaining = 0 — not a negative
value as the claim requires — while the floor the claim specifies would
give −1. -/
theorem goDaysRemaining_past_zero :
    goDaysRemaining 0 (-3600000000000) = 0 ∧
    ¬ goDaysRemaining 0 (-3600000000000) < 0 ∧
    (-3600000000000 : Int) < 0 ∧
    specFloorDays 0 (-3600000000000) = -1 := by
  refine ⟨by decide, by decide, by decide, by decide⟩

/-- Claim C1 (amended): daysRemaining is the 24-hour count of
(expiry − now) truncated toward zero, not floored: an expiry 24.5 hours
ahead gives 1 and 23.9 hours gives 0 as the claim states, but the value
is negative exactly when the expiry lies a full day or more in the past
(a past expiry within 24 hours gives 0); for any expiry not in the past
the truncation agrees with the floor the spec words describe. -/
theorem goDaysRemaining_truncates (now : Int) :
    goDaysRemaining now (now + 88200000000000) = 1 ∧
    goDaysRemaining now (now + 86040000000000) = 0 ∧
    ∀ expiryNanos : Int,
      (goDaysRemaining now expiryNanos < 0 ↔ expiryNanos - now ≤ -nsPerDay) ∧
      (0 ≤ expiryNanos - now →
        goDaysRemaining now expiryNanos = specFloorDays now expiryNanos) := by
  refine ⟨?_, ?_, fun e => ⟨?_, ?_⟩⟩
  · unfold goDaysRemaining
    rw [add_sub_cancel_left]
    decide
  · unfold goDaysRemaining
    rw [add_sub_cancel_left]
    decide
  · exact tdiv_nsPerDay_neg_iff (e - now)
  · intro h
    unfold goDaysRemaining specFloorDays
    rw [Int.tdiv_eq_ediv h (by norm_num [nsPerDay]),
      Int.fdiv_eq_ediv _ (by norm_num [nsPerDay])]

/-- Witness for the amended C1 theorem at now = 0, expiry 24.5 hours
ahead. -/
theorem goDaysRemaining_truncates_witness :
    goDaysRemaining 0 (0 + 88200000000000) = 1 ∧
    goDaysRemaining 0 88200000000000 = specFloorDays 0 88200000000000 :=
  ⟨(goDaysRemaining_truncates 0).1,
   ((goDaysRemaining_truncates 0).2.2 88200000000000).2 (by decide)⟩

/-- Claim C2: after every check cycle, `expiringCerts` equals exactly the
records of `allCerts` whose daysRemaining is ≤ 14 — so it is a subset of
`allCerts` and no record outside `allCerts` appears in it. -/
theorem checkCertificates_expiring_eq_filter (urls : List (String × String))
    (inspect : String → String → Except String CertInfo) :
    (checkCertificates urls inspect).expiringCerts
        = (checkCertificates urls inspect).allCerts.filter
            (fun c => decide (c.daysRemaining ≤ 14)) ∧
    ∀ c, c ∈ (checkCertificates urls inspect).expiringCerts →
      c ∈ (checkCertificates urls inspect).allCerts := by
  have h1 := checkCertificates_allCerts urls inspect
  have h2 := checkCertificates_expiringCerts urls inspect
  constructor
  · rw [h1, h2]
  · intro c hc
    rw [h2] at hc
    rw [h1]
    exact List.mem_of_mem_filter hc

/-- Witness for C2: the five-day record of the fixture cycle is in
`expiringCerts`, hence in `allCerts`. -/
theorem checkCertificates_expiring_eq_filter_witness :
    c0 ∈ (checkCertificates urls0 inspect0).allCerts :=
  (checkCertificates_expiring_eq_filter urls0 inspect0).2 c0 (by decide)

/-- Claim C3: the severity chain of the email renderer is a total
function of daysRemaining agreeing with the spec's classifier, its four
bands are contiguous, non-overlapping and exhaustive, and the boundary
values 7, 8, 14, 15, 30, 31 map to CRITICAL, WARNING, WARNING, CAUTION,
CAUTION, OK. -/
theorem statBand_bands (d : Int) :
    statBand d = classify d ∧
    (statBand d = .critical ↔ d ≤ 7) ∧
    (statBand d = .warning ↔ 8 ≤ d ∧ d ≤ 14) ∧
    (statBand d = .caution ↔ 15 ≤ d ∧ d ≤ 30) ∧
    (statBand d = .ok ↔ 31 ≤ d) ∧
    statBand 7 = .critical ∧ statBand 8 = .warning ∧
    statBand 14 = .warning ∧ statBand 15 = .caution ∧
    statBand 30 = .caution ∧ statBand 31 = .ok := by
  refine ⟨?_, ?_, ?_, ?_, ?_, by decide, by decide, by decide, by decide,
    by decide, by decide⟩
  · unfold statBand classify
    split_ifs <;> simp_all <;> omega
  all_goals
    unfold statBand
    split_ifs <;> simp_all <;> omega

/-- Claim C4: when the endpoint set is empty the cycle logs the
no-URLs line and invokes neither dispatcher; the report dispatcher is
invoked exactly when `allCerts` is non-empty and the alert dispatcher
exactly when `expiringCerts` is non-empty. -/
theorem checkCertificates_dispatch_gating (urls : List (String × String))
    (inspect : String → String → Except String CertInfo) :
    (urls = [] →
      (checkCertificates urls inspect).emailInvoked = false ∧
      (checkCertificates urls inspect).slackInvoked = false ∧
      LogEvent.noURLs ∈ (checkCertificates urls inspect).log) ∧
    ((checkCertificates urls inspect).emailInvoked = true ↔
      (checkCertificates urls inspect).allCerts ≠ []) ∧
    ((checkCertificates urls inspect).slackInvoked = true ↔
      (checkCertificates urls inspect).expiringCerts ≠ []) := by
  refine ⟨?_, ?_, ?_⟩
  · intro h
    subst h
    exact ⟨rfl, rfl, by simp [checkCertificates]⟩
  · unfold checkCertificates
    split
    · next h => simp [List.length_eq_zero.mp h]
    · next h => simp [List.length_pos]
  · unfold checkCertificates
    split
    · next h => simp [List.length_eq_zero.mp h]
    · next h => simp [List.length_pos]

/-- Witness for C4 at the empty endpoint set. -/
theorem checkCertificates_dispatch_gating_witness :
    (checkCertificates [] inspect0).emailInvoked = false ∧
    (checkCertificates [] inspect0).slackInvoked = false :=
  ⟨((checkCertificates_dispatch_gating [] inspect0).1 rfl).1,
   ((checkCertificates_dispatch_gating [] inspect0).1 rfl).2.1⟩

/-- Claim C10: each successfully inspected endpoint contributes exactly
one record to `allCerts`, in iteration order, and `expiringCerts` is an
ordered subsequence of `allCerts`. -/
theorem checkCertificates_expiring_sublist (urls : List (String × String))
    (inspect : String → String → Except String CertInfo) :
    (checkCertificates urls inspect).allCerts
        = urls.filterMap (fun p => (inspect p.2 p.1).toOption) ∧
    (checkCertificates urls inspect).expiringCerts.Sublist
        (checkCertificates urls inspect).allCerts := by
  refine ⟨checkCertificates_allCerts urls inspect, ?_⟩
  rw [checkCertificates_expiringCerts, ← checkCertificates_allCerts]
  exact List.filter_sublist _

/-- Claim C5: partial-failure isolation: an endpoint whose inspection
fails contributes no record to either sequence (the accumulated records
are exactly the successes, no placeholder), its label, address and cause
are logged, and its presence does not change what the remaining
endpoints contribute. -/
theorem checkCertificates_failure_isolation (urls : List (String × String))
    (inspect : String → String → Except String CertInfo) :
    (checkCertificates urls inspect).allCerts
        = urls.filterMap (fun p => (inspect p.2 p.1).toOption) ∧
    (∀ p, p ∈ urls → ∀ e, inspect p.2 p.1 = .error e →
      LogEvent.inspectFailed p.1 p.2 e ∈ (checkCertificates urls inspect).log) ∧
    (∀ pre post n u e, urls = pre ++ (n, u) :: post → inspect u n = .error e →
      (checkCertificates urls inspect).allCerts
          = (checkCertificates (pre ++ post) inspect).allCerts ∧
      (checkCertificates urls inspect).expiringCerts
          = (checkCertificates (pre ++ post) inspect).expiringCerts) := by
  refine ⟨checkCertificates_allCerts urls inspect, ?_, ?_⟩
  · intro p hp e he
    have hne : urls ≠ [] := by
      rintro rfl
      cases hp
    rw [checkCertificates_log urls inspect hne]
    have hev : logEventOf inspect p = .inspectFailed p.1 p.2 e := by
      unfold logEventOf
      rw [he]
    have hmem : LogEvent.inspectFailed p.1 p.2 e ∈ urls.map (logEventOf inspect) := by
      rw [← hev]
      exact List.mem_map_of_mem _ hp
    simp [hmem]
  · intro pre post n u e hurls he
    subst hurls
    constructor
    · rw [checkCertificates_allCerts, checkCertificates_allCerts]
      simp [List.filterMap_append, List.filterMap_cons, he, Except.toOption]
    · rw [checkCertificates_expiringCerts, checkCertificates_expiringCerts]
      simp [List.filterMap_append, List.filterMap_cons, he, Except.toOption]

/-- Witness for C5: the failing third fixture endpoint is logged with its
label, address and cause. -/
theorem checkCertificates_failure_isolation_witness :
    LogEvent.inspectFailed "C" "c.example" "dial tcp: connection refused"
      ∈ (checkCertificates urls0 inspect0).log :=
  (checkCertificates_failure_isolation urls0 inspect0).2.1
    ("C", "c.example") (by decide) "dial tcp: connection refused" rfl

/-- Claim C6: the report dispatcher skips exactly when transport host,
port, sender or recipient is missing (empty); the auth username and
password are not part of the test, and delivery is attempted carrying
whatever they hold, including empty strings. -/
theorem sendEmail_skip_iff (cfg : SMTPConfig)
    (allCerts expiringCerts : List CertInfo) :
    (sendEmail cfg allCerts expiringCerts = none ↔
      cfg.smtpHost = "" ∨ cfg.smtpPort = "" ∨ cfg.emailFrom = "" ∨ cfg.emailTo = "") ∧
    (¬(cfg.smtpHost = "" ∨ cfg.smtpPort = "" ∨ cfg.emailFrom = "" ∨ cfg.emailTo = "") →
      sendEmail cfg allCerts expiringCerts = some
        { addr := cfg.smtpHost ++ ":" ++ cfg.smtpPort,
          authUser := cfg.smtpUser, authPass := cfg.smtpPass,
          mailFrom := cfg.emailFrom, rcptTo := [cfg.emailTo],
          allCerts := allCerts, expiringCerts := expiringCerts }) := by
  unfold sendEmail
  constructor
  · split <;> simp_all
  · intro h
    split <;> simp_all

/-- Fixture SMTP configuration with all required fields set and the
optional auth credentials left empty. -/
def cfg0 : SMTPConfig :=
  { smtpHost := "smtp.example", smtpPort := "587",
    smtpUser := "", smtpPass := "",
    emailFrom := "monitor@example.com", emailTo := "ops@example.com" }

/-- Witness for C6: with empty auth credentials but all required fields
present, delivery is still attempted. -/
theorem sendEmail_skip_iff_witness :
    sendEmail cfg0 [c1] [] = some
      { addr := cfg0.smtpHost ++ ":" ++ cfg0.smtpPort,
        authUser := cfg0.smtpUser, authPass := cfg0.smtpPass,
        mailFrom := cfg0.emailFrom, rcptTo := [cfg0.emailTo],
        allCerts := [c1], expiringCerts := [] } :=
  (sendEmail_skip_iff cfg0 [c1] []).2 (by decide)

/-- Claim C7 counterexample: status 204 is a success (2xx) code, yet the
dispatcher logs it as a delivery failure, because the code tests
`!= 200` rather than the 2xx class. -/
theorem sendSlackNotification_status204 :
    (sendSlackNotification "https://hooks.example/w" [c0]
        (fun _ => .ok 204)).2 = SlackOutcome.deliveryFailed 204 ∧
    200 ≤ 204 ∧ 204 < 300 := by
  refine ⟨by decide, by decide, by decide⟩

/-- Claim C7 (amended): with the webhook configured, a delivery failure
is logged exactly when the response status is not 200 (`http.StatusOK`) —
including other 2xx codes — and a successful dispatch is logged exactly
on 200; a transport error is logged as such; in every case exactly one
POST is made, so nothing is retried, and the outcome is only a log
entry, never an abort of the cycle. -/
theorem sendSlackNotification_failure_iff (url : String)
    (certs : List CertInfo) (s : Nat) (h : url ≠ "") :
    ((sendSlackNotification url certs (fun _ => .ok s)).2
        = SlackOutcome.deliveryFailed s ↔ s ≠ 200) ∧
    ((sendSlackNotification url certs (fun _ => .ok s)).2
        = SlackOutcome.delivered ↔ s = 200) ∧
    (∀ e, (sendSlackNotification url certs (fun _ => .error e)).2
        = SlackOutcome.transportError e) ∧
    (sendSlackNotification url certs (fun _ => .ok s)).1.length = 1 := by
  unfold sendSlackNotification
  simp only [if_neg h]
  by_cases hs : s = 200 <;> simp_all

/-- Witness for the amended C7 theorem at status 500. -/
theorem sendSlackNotification_failure_iff_witness :
    ((sendSlackNotification "https://hooks.example/w2" [c0]
        (fun _ => .ok 500)).2 = SlackOutcome.deliveryFailed 500 ↔ 500 ≠ 200) :=
  (sendSlackNotification_failure_iff "https://hooks.example/w2" [c0] 500
    (by decide)).1

/-- Claim C8 counterexample: the message rendered for the non-empty
expiring list `[c0]` is non-empty and carries the literal two-character
sequence backslash-n, but contains no newline character at all, so its
lines are not separated by newlines as the claim states. -/
theorem buildSlackMessage_no_newline :
    buildSlackMessage [c0] ≠ "" ∧
    "\\n".data <:+: (buildSlackMessage [c0]).data ∧
    (buildSlackMessage [c0]).data.all (fun ch => decide (ch ≠ '\n')) = true := by
  refine ⟨by decide, by decide, by decide⟩

/-- Claim C8 (amended): with the webhook configured, the alert dispatcher
POSTs exactly one payload; the payload's top-level text field carries the
rendered message, mirrored by the section block (the header block holds
the fixed title); the message is the fixed header followed by one
fragment per record of the list it was given — the expiring records, in
order, and nothing else — and each fragment carries that record's label,
address, certificate common name, days remaining and expiry date,
terminated by the literal two-character sequence backslash-n written
twice (the Go literal `\\n`), not by newline characters. -/
theorem sendSlackNotification_payload (url : String) (certs : List CertInfo)
    (post : SlackPayload → Except String Nat) (h : url ≠ "") :
    (sendSlackNotification url certs post).1 = [slackPayload certs] ∧
    (slackPayload certs).text = buildSlackMessage certs ∧
    (slackPayload certs).blocks.map (fun b => b.text.text)
        = [slackHeaderBlockText, buildSlackMessage certs] ∧
    buildSlackMessage certs = slackHeaderText ++ concatAll (certs.map slackLine) ∧
    ∀ c, c ∈ certs →
      c.name.data <:+: (buildSlackMessage certs).data ∧
      c.url.data <:+: (buildSlackMessage certs).data ∧
      c.commonName.data <:+: (buildSlackMessage certs).data ∧
      (toString c.daysRemaining).data <:+: (buildSlackMessage certs).data ∧
      (formatDateISO c.expiryDate).data <:+: (buildSlackMessage certs).data ∧
      "\\n\\n".data <:+ (slackLine c).data := by
  refine ⟨?_, rfl, rfl, buildSlackMessage_concat certs, ?_⟩
  · unfold sendSlackNotification
    rw [if_neg h]
    cases hp : post (slackPayload certs) <;> simp [hp]
  · intro c hc
    have hline : (slackLine c).data <:+: (buildSlackMessage certs).data := by
      rw [buildSlackMessage_concat certs]
      exact part_right _ slackHeaderText _
        (part_concatAll (slackLine c) (certs.map slackLine)
          (List.mem_map_of_mem slackLine hc))
    obtain ⟨h1, h2, h3, h4, h5, h6⟩ := slackLine_fields c
    exact ⟨h1.trans hline, h2.trans hline, h3.trans hline,
      h4.trans hline, h5.trans hline, h6⟩

/-- Witness for the amended C8 theorem on the fixture record. -/
theorem sendSlackNotification_payload_witness :
    (sendSlackNotification "https://hooks.example/services/T0/B0/x" [c0]
        (fun _ => Except.ok 200)).1 = [slackPayload [c0]] ∧
    c0.name.data <:+: (buildSlackMessage [c0]).data :=
  ⟨(sendSlackNotification_payload "https://hooks.example/services/T0/B0/x"
      [c0] (fun _ => Except.ok 200) (by decide)).1,
   ((sendSlackNotification_payload "https://hooks.example/services/T0/B0/x"
      [c0] (fun _ => Except.ok 200) (by decide)).2.2.2.2 c0 (by decide)).1⟩

/-- Claim C9: both dispatchers style every record with the classifier's
thresholds: the all-certificates styling follows the four bands exactly,
and for the ≤14-day records the alert dispatcher handles, its red-circle
versus warning emoji split and the expiring-section styling coincide
with the CRITICAL/WARNING split. -/
theorem dispatchers_consistent_bands (d : Int) :
    allBadgeClass d = bandBadge (statBand d) ∧
    allCardClass d = bandCard (statBand d) ∧
    (d ≤ 14 →
      (slackEmoji d = "\uF8FF\u00FC\u00EE\u00A5" ↔ statBand d = .critical) ∧
      (slackEmoji d = "\u201A\u00F6\u2020\u00D4\u220F\u00E8" ↔ statBand d = .warning) ∧
      expiringBadgeClass d = bandBadge (statBand d) ∧
      expiringCardClass d = bandCard (statBand d)) := by
  refine ⟨?_, ?_, fun h => ⟨?_, ?_, ?_, ?_⟩⟩
  · unfold allBadgeClass statBand
    split_ifs <;> decide
  · unfold allCardClass statBand
    split_ifs <;> decide
  · unfold slackEmoji statBand
    split_ifs <;> decide
  · unfold slackEmoji statBand
    split_ifs <;> decide
  · unfold expiringBadgeClass statBand
    split_ifs <;> decide
  · unfold expiringCardClass statBand
    split_ifs <;> decide

/-- Witness for C9 at daysRemaining = 3, an expiring-range value. -/
theorem dispatchers_consistent_bands_witness :
    allBadgeClass 3 = bandBadge (statBand 3) ∧
    (slackEmoji 3 = "\uF8FF\u00FC\u00EE\u00A5" ↔ statBand 3 = SeverityBand.critical) :=
  ⟨(dispatchers_consistent_bands 3).1,
   ((dispatchers_consistent_bands 3).2.2 (by decide)).1⟩
